import Mathlib

/-
  Shallow embedding of the presence-to-action decision engine of
  fbettag/unifi-gate-opener.

  Sources embedded here:
  - internal/handlers/web.go: DeviceState, pollUniFi, loadDeviceStates,
    handleDeviceConnected, handleDeviceRoamed, handleDeviceDisconnected,
    checkAndOpenGate, reauthenticateWithBackoff, AddDeviceHandler,
    UpdateDeviceHandler, DeleteDeviceHandler (registry mutations only).
  - internal/gate/controller.go: OpenGate.
  - internal/config/config.go: the configuration fields the engine reads.

  Modelling conventions:
  - Timestamps (time.Time) are nanoseconds since the epoch as Nat; the Go
    zero time is 0 (so a device never triggered has lastGateTrigger = 0).
  - Durations (time.Duration) are nanoseconds as Int, wrapped to int64
    two's-complement range exactly where the Go code performs int64
    arithmetic (wrap64 below), since overflow is observable there.
  - time.Since(t) at instant now is (now : Int) - t.
  - External effects are parameters: the actuator outcome is an
    Option String (none = success, some msg = the error text), the UniFi
    login outcome is a Bool, the HTTP response of the gate trigger is an
    Except String Nat (error text, or a status code).
  - The event log is returned as a List LogEntry (only the fields the
    engine writes); whether the actuator was called is returned as a Bool.
-/

namespace GateOpener

/-- Two's-complement wrap of an integer to the int64 range, mirroring Go
arithmetic on int / int64 / time.Duration values. -/
def wrap64 (x : Int) : Int :=
  (x + 2 ^ 63) % 2 ^ 64 - 2 ^ 63

/-- strings.ToUpper as used on hardware identifiers (hex digits, colons
and ASCII letters), mapping each character to its upper-case form. -/
def toUpperStr (s : String) : String :=
  ⟨s.data.map Char.toUpper⟩

/-- Direction constant from web.go. -/
def directionArriving : String := "arriving"

/-- Direction constant from web.go. -/
def directionLeaving : String := "leaving"

/-- Direction constant from web.go. -/
def directionUnknown : String := "unknown"

/-- The fields of database.LogEntry that the decision engine writes. -/
structure LogEntry where
  deviceMAC : String
  deviceName : String
  event : String
  direction : String
  fromAP : String
  toAP : String
  gateOpened : Bool
  message : String
  deriving Repr, DecidableEq

/-- DeviceState from web.go (timestamps as Nat nanoseconds). -/
structure DeviceState where
  mac : String
  name : String
  currentAP : String
  previousAP : String
  lastSeen : Nat
  isConnected : Bool
  lastGateTrigger : Nat
  deriving Repr, DecidableEq

/-- The fields of unifi.WirelessClient that pollUniFi reads.  Uptime is an
int64 in Go, hence Int here. -/
structure WirelessClient where
  mac : String
  ap_mac : String
  uptime : Int
  deriving Repr, DecidableEq

/-- The fields of config.UniFiConfig that the engine reads. -/
structure UniFiConfig where
  gateAPMAC : String
  deriving Repr, DecidableEq

/-- The fields of config.GateConfig that the engine reads.  OpenDuration is
a Go int (minutes). -/
structure GateConfig where
  openDuration : Int
  logActivity : Bool
  deriving Repr, DecidableEq

/-- The slice of config.Config that the engine reads. -/
structure Config where
  unifi : UniFiConfig
  gate : GateConfig
  deriving Repr, DecidableEq

/-- Cooldown window of checkAndOpenGate:
time.Duration(cfg.Gate.OpenDuration) * time.Minute, in nanoseconds with Go
int64 semantics. -/
def cooldownNs (cfg : Config) : Int :=
  wrap64 (cfg.gate.openDuration * 60000000000)

/-- Log entry written by checkAndOpenGate on the cooldown path. -/
def gateSkippedEntry (st : DeviceState) (direction : String) : LogEntry :=
  ⟨st.mac, st.name, "gate_skipped", direction, "", "", false,
    "Gate recently opened, cooldown active"⟩

/-- Log entry written by checkAndOpenGate when the actuator fails. -/
def gateErrorEntry (st : DeviceState) (direction : String) (e : String) : LogEntry :=
  ⟨st.mac, st.name, "gate_error", direction, "", "", false, e⟩

/-- Log entry written by checkAndOpenGate when the actuator succeeds. -/
def gateTriggeredEntry (st : DeviceState) (direction : String) : LogEntry :=
  ⟨st.mac, st.name, "gate_triggered", direction, "", "", true,
    "Gate opened successfully"⟩

/-- checkAndOpenGate from web.go.  now is the current instant; gateResult
is the outcome GateController.OpenGate() would return (none = success).
Returns the updated device state, the log entries written, and whether the
actuator was called. -/
def checkAndOpenGate (cfg : Config) (st : DeviceState) (direction : String)
    (now : Nat) (gateResult : Option String) :
    DeviceState × List LogEntry × Bool :=
  if (now : Int) - st.lastGateTrigger < cooldownNs cfg then
    (st, if cfg.gate.logActivity then [gateSkippedEntry st direction] else [],
      false)
  else
    match gateResult with
    | some e =>
        (st, if cfg.gate.logActivity then [gateErrorEntry st direction e] else [],
          true)
    | none =>
        ({ st with lastGateTrigger := now },
          if cfg.gate.logActivity then [gateTriggeredEntry st direction] else [],
          true)

/-- Log entry written by handleDeviceConnected. -/
def connectedEntry (st : DeviceState) (direction fromAP toAP : String) : LogEntry :=
  ⟨st.mac, st.name, "connected", direction, fromAP, toAP, false,
    "Device connected to network"⟩

/-- handleDeviceConnected from web.go. -/
def handleDeviceConnected (cfg : Config) (st : DeviceState) (toAP fromAP : String)
    (now : Nat) (gateResult : Option String) :
    DeviceState × List LogEntry × Bool :=
  let direction :=
    if toAP = cfg.unifi.gateAPMAC then directionArriving else directionUnknown
  let connLog :=
    if cfg.gate.logActivity then [connectedEntry st direction fromAP toAP] else []
  if toAP = cfg.unifi.gateAPMAC then
    let r := checkAndOpenGate cfg st direction now gateResult
    (r.1, connLog ++ r.2.1, r.2.2)
  else
    (st, connLog, false)

/-- Direction computation of handleDeviceRoamed from web.go. -/
def roamDirection (gateAPMAC fromAP toAP : String) : String :=
  if toAP = gateAPMAC then
    if fromAP ≠ "" then directionLeaving else directionArriving
  else if fromAP = gateAPMAC then directionArriving
  else directionUnknown

/-- Log entry written by handleDeviceRoamed. -/
def roamedEntry (st : DeviceState) (direction fromAP toAP : String) : LogEntry :=
  ⟨st.mac, st.name, "roamed", direction, fromAP, toAP, false,
    "Device roamed between access points"⟩

/-- handleDeviceRoamed from web.go. -/
def handleDeviceRoamed (cfg : Config) (st : DeviceState) (fromAP toAP : String)
    (now : Nat) (gateResult : Option String) :
    DeviceState × List LogEntry × Bool :=
  let direction := roamDirection cfg.unifi.gateAPMAC fromAP toAP
  let roamLog :=
    if cfg.gate.logActivity then [roamedEntry st direction fromAP toAP] else []
  if toAP = cfg.unifi.gateAPMAC ∨ fromAP = cfg.unifi.gateAPMAC then
    let r := checkAndOpenGate cfg st direction now gateResult
    (r.1, roamLog ++ r.2.1, r.2.2)
  else
    (st, roamLog, false)

/-- Log entry written by handleDeviceDisconnected. -/
def disconnectedEntry (st : DeviceState) : LogEntry :=
  ⟨st.mac, st.name, "disconnected", "", st.currentAP, "", false,
    "Device disconnected from network"⟩

/-- handleDeviceDisconnected from web.go: only logs, mutates nothing. -/
def handleDeviceDisconnected (cfg : Config) (st : DeviceState) : List LogEntry :=
  if cfg.gate.logActivity then [disconnectedEntry st] else []

/-- The per-device body of the pollUniFi loop (web.go lines 794-843).
client? is the entry of the currentlyConnected map for this device's
registry key (none when absent).  Returns the updated state, the log
entries written, and whether the actuator was called. -/
def processDevice (cfg : Config) (st : DeviceState) (client? : Option WirelessClient)
    (now : Nat) (gateResult : Option String) :
    DeviceState × List LogEntry × Bool :=
  match client? with
  | some client =>
      let newAP := client.ap_mac
      let r :=
        if st.isConnected = false then
          if newAP = cfg.unifi.gateAPMAC ∧ client.uptime < 30 then
            handleDeviceConnected cfg st newAP "nowhere" now gateResult
          else if newAP ≠ cfg.unifi.gateAPMAC then
            handleDeviceConnected cfg st newAP "nowhere" now gateResult
          else
            (st, [], false)
        else if st.currentAP ≠ newAP then
          handleDeviceRoamed cfg st st.currentAP newAP now gateResult
        else
          (st, [], false)
      ({ r.1 with currentAP := newAP, isConnected := true, lastSeen := now },
        r.2.1, r.2.2)
  | none =>
      if st.isConnected then
        ({ st with previousAP := st.currentAP, currentAP := "", isConnected := false },
          handleDeviceDisconnected cfg st, false)
      else
        (st, [], false)

/-- The currentlyConnected map lookup of pollUniFi: snapshot entries are
keyed by the uppercased client MAC (later duplicates overwrite earlier
ones, as in a Go map built in order). -/
def lookupClient (snapshot : List WirelessClient) (key : String) :
    Option WirelessClient :=
  (snapshot.filter (fun c => toUpperStr c.mac = key)).getLast?

/-- One poll cycle over the registry (the tracked-device loop of
pollUniFi), with the actuator outcome given per registry key.  Returns the
per-device results in registry order. -/
def pollResults (cfg : Config) (snapshot : List WirelessClient) (now : Nat)
    (gateResult : String → Option String) (registry : List DeviceState) :
    List (DeviceState × List LogEntry × Bool) :=
  registry.map (fun st =>
    processDevice cfg st (lookupClient snapshot st.mac) now (gateResult st.mac))

/-- The registry after one poll cycle. -/
def pollStates (cfg : Config) (snapshot : List WirelessClient) (now : Nat)
    (gateResult : String → Option String) (registry : List DeviceState) :
    List DeviceState :=
  (pollResults cfg snapshot now gateResult registry).map (fun r => r.1)

/-- The log entries written during one poll cycle. -/
def pollEvents (cfg : Config) (snapshot : List WirelessClient) (now : Nat)
    (gateResult : String → Option String) (registry : List DeviceState) :
    List LogEntry :=
  (pollResults cfg snapshot now gateResult registry).flatMap (fun r => r.2.1)

/-- The number of actuator calls made during one poll cycle. -/
def pollCalls (cfg : Config) (snapshot : List WirelessClient) (now : Nat)
    (gateResult : String → Option String) (registry : List DeviceState) : Nat :=
  ((pollResults cfg snapshot now gateResult registry).filter (fun r => r.2.2)).length

/-- The authentication-retry fields of the App struct in web.go
(authRetryCount : int, lastAuthAttempt : time.Time, authRetryBackoff :
time.Duration in nanoseconds, possibly negative after int64 overflow). -/
structure AuthState where
  authRetryCount : Nat
  lastAuthAttempt : Nat
  authRetryBackoff : Int
  deriving Repr, DecidableEq

/-- Outcome of reauthenticateWithBackoff: blocked by the backoff window
(a distinct error, Login never called), a failed login, or success. -/
inductive ReauthResult where
  | backoffInEffect
  | loginFailed
  | success
  deriving Repr, DecidableEq

/-- reauthenticateWithBackoff from web.go.  now is the current instant and
loginOk the outcome UniFiClient.Login() would return.  Returns the updated
auth state, the result, and whether Login was invoked.  The backoff
computation mirrors Go exactly: 1 << uint(retryCount-1) on a 64-bit int,
multiplied by time.Second with int64 wrap-around, then capped at 64s only
when the (possibly overflowed) value exceeds 64s. -/
def reauthenticateWithBackoff (st : AuthState) (now : Nat) (loginOk : Bool) :
    AuthState × ReauthResult × Bool :=
  if (now : Int) - st.lastAuthAttempt < st.authRetryBackoff then
    (st, ReauthResult.backoffInEffect, false)
  else
    let st1 := { st with lastAuthAttempt := now }
    if loginOk then
      ({ st1 with authRetryCount := 0, authRetryBackoff := 0 },
        ReauthResult.success, true)
    else
      let rc := st.authRetryCount + 1
      let shifted := wrap64 (2 ^ (rc - 1))
      let backoff0 := wrap64 (shifted * 1000000000)
      let backoff := if backoff0 > 64000000000 then 64000000000 else backoff0
      ({ st1 with authRetryCount := rc, authRetryBackoff := backoff },
        ReauthResult.loginFailed, true)

/-- Auth state at monitoring start: zero count, zero time, zero backoff. -/
def initialAuthState : AuthState := ⟨0, 0, 0⟩

/-- n consecutive failed re-authentication attempts starting from the
initial auth state, each attempt made 100 seconds after the previous one
(outside every backoff window the code can produce, so each attempt
reaches Login). -/
def failN : Nat → AuthState
  | 0 => initialAuthState
  | n + 1 =>
      let st := failN n
      (reauthenticateWithBackoff st (st.lastAuthAttempt + 100000000000) false).1

/-- OpenGate from internal/gate/controller.go.  httpResult is what the
HTTP GET of the trigger URL would produce (error text, or a status code).
Returns whether an HTTP request was performed, and the call's result. -/
def OpenGate (triggerURL : String) (httpResult : Except String Nat) :
    Bool × Except String Unit :=
  if triggerURL = "" then
    (false, Except.error "gate trigger URL not configured")
  else
    match httpResult with
    | Except.error e => (true, Except.error ("failed to trigger gate: " ++ e))
    | Except.ok code =>
        if code ≠ 200 then
          (true, Except.error ("gate trigger returned status " ++ toString code))
        else
          (true, Except.ok ())

/-- Insertion into the deviceStates map: overwrite the entry with the same
key, else append (Go map assignment, registry kept in insertion order). -/
def mapSet (registry : List DeviceState) (st : DeviceState) : List DeviceState :=
  if registry.any (fun s => s.mac = st.mac) then
    registry.map (fun s => if s.mac = st.mac then st else s)
  else
    registry ++ [st]

/-- Deletion from the deviceStates map (Go delete builtin). -/
def mapDelete (registry : List DeviceState) (key : String) : List DeviceState :=
  registry.filter (fun s => s.mac ≠ key)

/-- The registry mutation of AddDeviceHandler (web.go lines 284-292): when
monitoring is active, insert a fresh state keyed by the uppercased MAC,
all other fields zero-valued. -/
def addDeviceRegistry (registry : List DeviceState) (isMonitoring : Bool)
    (mac name : String) : List DeviceState :=
  if isMonitoring then
    mapSet registry ⟨toUpperStr mac, name, "", "", 0, false, 0⟩
  else
    registry

/-- The registry mutation of UpdateDeviceHandler (web.go lines 327-339):
the raw path parameter is used as the map key, with no normalization. -/
def updateDeviceRegistry (registry : List DeviceState) (isMonitoring : Bool)
    (mac name : String) (enabled : Bool) : List DeviceState :=
  if registry.any (fun s => s.mac = mac) then
    let registry1 := registry.map (fun s =>
      if s.mac = mac then { s with name := name } else s)
    if enabled = false then mapDelete registry1 mac else registry1
  else if enabled ∧ isMonitoring then
    mapSet registry ⟨mac, name, "", "", 0, false, 0⟩
  else
    registry

/-- The registry mutation of DeleteDeviceHandler (web.go lines 364-366):
the raw path parameter is used as the map key, with no normalization. -/
def deleteDeviceRegistry (registry : List DeviceState) (mac : String) :
    List DeviceState :=
  mapDelete registry mac

/-- One registry operation while monitoring runs: a poll cycle, or one of
the CRUD mutations. -/
inductive Op where
  | poll (snapshot : List WirelessClient) (now : Nat)
      (gateResult : String → Option String)
  | add (isMonitoring : Bool) (mac name : String)
  | update (isMonitoring : Bool) (mac name : String) (enabled : Bool)
  | remove (mac : String)

/-- Apply one operation to the registry. -/
def applyOp (cfg : Config) (registry : List DeviceState) : Op → List DeviceState
  | Op.poll snapshot now gateResult =>
      pollStates cfg snapshot now gateResult registry
  | Op.add isMonitoring mac name =>
      addDeviceRegistry registry isMonitoring mac name
  | Op.update isMonitoring mac name enabled =>
      updateDeviceRegistry registry isMonitoring mac name enabled
  | Op.remove mac => deleteDeviceRegistry registry mac

/-- Apply a sequence of operations to the registry. -/
def applyOps (cfg : Config) (registry : List DeviceState) (ops : List Op) :
    List DeviceState :=
  ops.foldl (applyOp cfg) registry

/-- The spec's connectivity invariant on one device state: currentAP is
empty exactly when the device is disconnected. -/
def connInv (st : DeviceState) : Prop :=
  (st.currentAP = "" ↔ st.isConnected = false)

instance (st : DeviceState) : Decidable (connInv st) := by
  unfold connInv; infer_instance

/-- An operation whose snapshot entries all carry a non-empty AP
identifier (CRUD operations carry no snapshot and qualify trivially). -/
def goodSnapshots : Op → Prop
  | Op.poll snapshot _ _ => ∀ c ∈ snapshot, c.ap_mac ≠ ""
  | _ => True

/-- Erase the lastSeen field, to state that a poll changed nothing else. -/
def stripLastSeen (st : DeviceState) : DeviceState := { st with lastSeen := 0 }

/-- C10: OpenGate returns an error without performing any HTTP request when
the trigger URL is empty; when a request is performed, it succeeds exactly
when the HTTP status is 200, every other status or transport error being
reported as an error. -/
theorem openGate_requires_url_and_status_200 :
    (∀ r, OpenGate "" r = (false, Except.error "gate trigger URL not configured")) ∧
    (∀ url r, url ≠ "" → (OpenGate url r).1 = true) ∧
    (∀ url code, url ≠ "" →
      ((OpenGate url (Except.ok code)).2 = Except.ok () ↔ code = 200)) ∧
    (∀ url e, url ≠ "" →
      (OpenGate url (Except.error e)).2
        = Except.error ("failed to trigger gate: " ++ e)) := by
  refine ⟨fun r => ?_, fun url r h => ?_, fun url code h => ?_, fun url e h => ?_⟩
  · simp [OpenGate]
  · unfold OpenGate
    rw [if_neg h]
    cases r with
    | error e => rfl
    | ok code =>
        by_cases hc : code = 200
        · simp [hc]
        · simp [hc]
  · unfold OpenGate
    rw [if_neg h]
    by_cases hc : code = 200
    · simp [hc]
    · simp [hc]
  · unfold OpenGate
    rw [if_neg h]

/-- Witness for C10 at a concrete URL and status codes 200 and 201. -/
theorem openGate_requires_url_and_status_200_witness :
    ((OpenGate "http://gate" (Except.ok 200)).2 = Except.ok () ↔ 200 = 200) ∧
    ((OpenGate "http://gate" (Except.ok 201)).2 = Except.ok () ↔ 201 = 200) :=
  ⟨openGate_requires_url_and_status_200.2.2.1 "http://gate" 200 (by decide),
   openGate_requires_url_and_status_200.2.2.1 "http://gate" 201 (by decide)⟩

/-- C6: when called within the backoff window, reauthenticateWithBackoff
returns immediately with the backoff-in-effect result (distinct from a
login failure), does not invoke Login, and leaves the auth state (count,
last attempt, backoff) unchanged. -/
theorem reauthenticate_backoff_blocks (st : AuthState) (now : Nat) (loginOk : Bool)
    (h : (now : Int) - st.lastAuthAttempt < st.authRetryBackoff) :
    reauthenticateWithBackoff st now loginOk
        = (st, ReauthResult.backoffInEffect, false) ∧
    ReauthResult.backoffInEffect ≠ ReauthResult.loginFailed := by
  constructor
  · unfold reauthenticateWithBackoff
    rw [if_pos h]
  · decide

/-- Witness for C6: backoff of 5s, last attempt at 0, called at 1s. -/
theorem reauthenticate_backoff_blocks_witness :
    reauthenticateWithBackoff ⟨1, 0, 5000000000⟩ 1000000000 true
        = (⟨1, 0, 5000000000⟩, ReauthResult.backoffInEffect, false) ∧
    ReauthResult.backoffInEffect ≠ ReauthResult.loginFailed :=
  reauthenticate_backoff_blocks ⟨1, 0, 5000000000⟩ 1000000000 true (by decide)

set_option maxRecDepth 40000 in
/-- C5 (code evaluated at the failing input): consecutive login failures
produce backoffs 1s, 2s, 4s, the cap 64s is reached and held through the
34th failure, a success resets count and backoff to zero — but on the 35th
consecutive failure the int64 computation 2^34 * time.Second overflows and
authRetryBackoff becomes negative instead of the specified
min(2^34 s, 64 s) = 64 s. -/
theorem authRetryBackoff_overflows_at_35th_failure :
    (failN 1).authRetryBackoff = 1000000000 ∧
    (failN 2).authRetryBackoff = 2000000000 ∧
    (failN 3).authRetryBackoff = 4000000000 ∧
    (failN 34).authRetryCount = 34 ∧
    (failN 34).authRetryBackoff = 64000000000 ∧
    (reauthenticateWithBackoff (failN 3) ((failN 3).lastAuthAttempt + 100000000000)
        true).1.authRetryCount = 0 ∧
    (reauthenticateWithBackoff (failN 3) ((failN 3).lastAuthAttempt + 100000000000)
        true).1.authRetryBackoff = 0 ∧
    (failN 35).authRetryCount = 35 ∧
    (failN 35).authRetryBackoff = -1266874889709551616 := by
  decide

/-- C7 (code evaluated at the failing input): with the registry holding
the normalized key AA:BB:CC:DD:EE:01, UpdateDeviceHandler and
DeleteDeviceHandler look the device up under the raw lowercase path
parameter: the update misses the existing entry and inserts a duplicate
state under the unnormalized key, the delete removes nothing, and a
disable-update also removes nothing — while AddDeviceHandler does
normalize the same input. -/
theorem update_delete_use_unnormalized_key :
    updateDeviceRegistry [⟨"AA:BB:CC:DD:EE:01", "Car", "", "", 0, false, 0⟩]
        true "aa:bb:cc:dd:ee:01" "Car" true
      = [⟨"AA:BB:CC:DD:EE:01", "Car", "", "", 0, false, 0⟩,
         ⟨"aa:bb:cc:dd:ee:01", "Car", "", "", 0, false, 0⟩] ∧
    deleteDeviceRegistry [⟨"AA:BB:CC:DD:EE:01", "Car", "", "", 0, false, 0⟩]
        "aa:bb:cc:dd:ee:01"
      = [⟨"AA:BB:CC:DD:EE:01", "Car", "", "", 0, false, 0⟩] ∧
    updateDeviceRegistry [⟨"AA:BB:CC:DD:EE:01", "Car", "", "", 0, false, 0⟩]
        true "aa:bb:cc:dd:ee:01" "Car" false
      = [⟨"AA:BB:CC:DD:EE:01", "Car", "", "", 0, false, 0⟩] ∧
    addDeviceRegistry [] true "aa:bb:cc:dd:ee:01" "Car"
      = [⟨"AA:BB:CC:DD:EE:01", "Car", "", "", 0, false, 0⟩] := by
  decide

/-- C1: a classified event arriving while now - lastGateTrigger is
strictly below the configured cooldown makes checkAndOpenGate return
without calling the actuator, leaving the state unchanged and writing the
gate_skipped entry (when activity logging is on); consequently two
qualifying events within the cooldown window produce exactly one actuator
call: the first (outside its own cooldown, succeeding) calls the actuator,
the second does not and produces the gate_skipped entry. -/
theorem cooldown_skips_and_single_trigger :
    (∀ (cfg : Config) (st : DeviceState) (direction : String) (now : Nat)
      (gateResult : Option String),
      (now : Int) - st.lastGateTrigger < cooldownNs cfg →
      checkAndOpenGate cfg st direction now gateResult
        = (st,
           if cfg.gate.logActivity then [gateSkippedEntry st direction] else [],
           false)) ∧
    (∀ (cfg : Config) (st : DeviceState) (d1 d2 : String) (t1 t2 : Nat)
      (g2 : Option String),
      ¬ ((t1 : Int) - st.lastGateTrigger < cooldownNs cfg) →
      (t2 : Int) - (t1 : Int) < cooldownNs cfg →
      (checkAndOpenGate cfg st d1 t1 none).2.2 = true ∧
      (checkAndOpenGate cfg (checkAndOpenGate cfg st d1 t1 none).1 d2 t2 g2).2.2
        = false ∧
      (checkAndOpenGate cfg (checkAndOpenGate cfg st d1 t1 none).1 d2 t2 g2).2.1
        = (if cfg.gate.logActivity then
            [gateSkippedEntry (checkAndOpenGate cfg st d1 t1 none).1 d2]
          else [])) := by
  constructor
  · intro cfg st direction now gateResult h
    unfold checkAndOpenGate
    rw [if_pos h]
  · intro cfg st d1 d2 t1 t2 g2 h1 h2
    have e1 : checkAndOpenGate cfg st d1 t1 none
        = ({ st with lastGateTrigger := t1 },
           if cfg.gate.logActivity then [gateTriggeredEntry st d1] else [],
           true) := by
      unfold checkAndOpenGate
      rw [if_neg h1]
    have h2' : (t2 : Int)
        - (({ st with lastGateTrigger := t1 } : DeviceState).lastGateTrigger : Int)
        < cooldownNs cfg := h2
    have e2 : checkAndOpenGate cfg { st with lastGateTrigger := t1 } d2 t2 g2
        = ({ st with lastGateTrigger := t1 },
           if cfg.gate.logActivity then
             [gateSkippedEntry { st with lastGateTrigger := t1 } d2]
           else [],
           false) := by
      unfold checkAndOpenGate
      rw [if_pos h2']
    rw [e1]
    exact ⟨rfl, by rw [e2], by rw [e2]⟩

/-- Witness for C1: gate AP G, cooldown 5 minutes; a device triggered at
instant 1000 is skipped at instant 1000, and after a successful trigger at
300s a second event 100ns later does not call the actuator. -/
theorem cooldown_skips_and_single_trigger_witness :
    checkAndOpenGate ⟨⟨"G"⟩, ⟨5, true⟩⟩
        ⟨"AA:BB:CC:DD:EE:01", "Car", "G", "", 0, true, 1000⟩ "arriving" 1000 none
      = (⟨"AA:BB:CC:DD:EE:01", "Car", "G", "", 0, true, 1000⟩,
         [gateSkippedEntry ⟨"AA:BB:CC:DD:EE:01", "Car", "G", "", 0, true, 1000⟩
            "arriving"],
         false) ∧
    (checkAndOpenGate ⟨⟨"G"⟩, ⟨5, true⟩⟩
        ⟨"AA:BB:CC:DD:EE:01", "Car", "G", "", 0, true, 0⟩ "arriving"
        300000000000 none).2.2 = true ∧
    (checkAndOpenGate ⟨⟨"G"⟩, ⟨5, true⟩⟩
        (checkAndOpenGate ⟨⟨"G"⟩, ⟨5, true⟩⟩
          ⟨"AA:BB:CC:DD:EE:01", "Car", "G", "", 0, true, 0⟩ "arriving"
          300000000000 none).1 "leaving" 300000000100 (some "boom")).2.2
      = false :=
  ⟨cooldown_skips_and_single_trigger.1 ⟨⟨"G"⟩, ⟨5, true⟩⟩
      ⟨"AA:BB:CC:DD:EE:01", "Car", "G", "", 0, true, 1000⟩ "arriving" 1000 none
      (by decide),
   (cooldown_skips_and_single_trigger.2 ⟨⟨"G"⟩, ⟨5, true⟩⟩
      ⟨"AA:BB:CC:DD:EE:01", "Car", "G", "", 0, true, 0⟩ "arriving" "leaving"
      300000000000 300000000100 (some "boom") (by decide) (by decide)).1,
   (cooldown_skips_and_single_trigger.2 ⟨⟨"G"⟩, ⟨5, true⟩⟩
      ⟨"AA:BB:CC:DD:EE:01", "Car", "G", "", 0, true, 0⟩ "arriving" "leaving"
      300000000000 300000000100 (some "boom") (by decide) (by decide)).2.1⟩

/-- C2: for a qualifying event that reaches the actuator call, a failing
call writes the gate_error entry (when activity logging is on) and leaves
lastGateTrigger unchanged, while a successful call sets lastGateTrigger to
the current instant and writes the gate_triggered entry. -/
theorem actuator_failure_keeps_cooldown_success_sets_it
    (cfg : Config) (st : DeviceState) (direction : String) (now : Nat)
    (h : ¬ ((now : Int) - st.lastGateTrigger < cooldownNs cfg)) :
    (∀ e, checkAndOpenGate cfg st direction now (some e)
        = (st,
           if cfg.gate.logActivity then [gateErrorEntry st direction e] else [],
           true)) ∧
    checkAndOpenGate cfg st direction now none
        = ({ st with lastGateTrigger := now },
           if cfg.gate.logActivity then [gateTriggeredEntry st direction] else [],
           true) := by
  constructor
  · intro e
    unfold checkAndOpenGate
    rw [if_neg h]
  · unfold checkAndOpenGate
    rw [if_neg h]

/-- Witness for C2 at a concrete device 300s past its last trigger. -/
theorem actuator_failure_keeps_cooldown_success_sets_it_witness :
    checkAndOpenGate ⟨⟨"G"⟩, ⟨5, true⟩⟩
        ⟨"AA:BB:CC:DD:EE:01", "Car", "G", "", 0, true, 0⟩ "arriving"
        300000000000 (some "connection refused")
      = (⟨"AA:BB:CC:DD:EE:01", "Car", "G", "", 0, true, 0⟩,
         [gateErrorEntry ⟨"AA:BB:CC:DD:EE:01", "Car", "G", "", 0, true, 0⟩
            "arriving" "connection refused"],
         true) ∧
    checkAndOpenGate ⟨⟨"G"⟩, ⟨5, true⟩⟩
        ⟨"AA:BB:CC:DD:EE:01", "Car", "G", "", 0, true, 0⟩ "arriving"
        300000000000 none
      = (⟨"AA:BB:CC:DD:EE:01", "Car", "G", "", 0, true, 300000000000⟩,
         [gateTriggeredEntry ⟨"AA:BB:CC:DD:EE:01", "Car", "G", "", 0, true, 0⟩
            "arriving"],
         true) :=
  ⟨(actuator_failure_keeps_cooldown_success_sets_it ⟨⟨"G"⟩, ⟨5, true⟩⟩
      ⟨"AA:BB:CC:DD:EE:01", "Car", "G", "", 0, true, 0⟩ "arriving" 300000000000
      (by decide)).1 "connection refused",
   (actuator_failure_keeps_cooldown_success_sets_it ⟨⟨"G"⟩, ⟨5, true⟩⟩
      ⟨"AA:BB:CC:DD:EE:01", "Car", "G", "", 0, true, 0⟩ "arriving" 300000000000
      (by decide)).2⟩

/-- C4: a roam to the gate AP from a non-empty AP classifies as leaving,
from an empty AP as arriving; a roam from the gate AP to a different AP
classifies as arriving; every other roam is unknown; and
handleDeviceRoamed invokes the gate trigger controller exactly when the
destination or origin AP is the gate AP. -/
theorem roam_classification_and_gate_invocation
    (cfg : Config) (st : DeviceState) (fromAP toAP : String) (now : Nat)
    (gateResult : Option String) :
    (toAP = cfg.unifi.gateAPMAC → fromAP ≠ "" →
      roamDirection cfg.unifi.gateAPMAC fromAP toAP = directionLeaving) ∧
    (toAP = cfg.unifi.gateAPMAC → fromAP = "" →
      roamDirection cfg.unifi.gateAPMAC fromAP toAP = directionArriving) ∧
    (fromAP = cfg.unifi.gateAPMAC → toAP ≠ cfg.unifi.gateAPMAC →
      roamDirection cfg.unifi.gateAPMAC fromAP toAP = directionArriving) ∧
    (toAP ≠ cfg.unifi.gateAPMAC → fromAP ≠ cfg.unifi.gateAPMAC →
      roamDirection cfg.unifi.gateAPMAC fromAP toAP = directionUnknown) ∧
    (toAP = cfg.unifi.gateAPMAC ∨ fromAP = cfg.unifi.gateAPMAC →
      handleDeviceRoamed cfg st fromAP toAP now gateResult
        = ((checkAndOpenGate cfg st (roamDirection cfg.unifi.gateAPMAC fromAP toAP)
              now gateResult).1,
           (if cfg.gate.logActivity then
              [roamedEntry st (roamDirection cfg.unifi.gateAPMAC fromAP toAP)
                 fromAP toAP]
            else [])
             ++ (checkAndOpenGate cfg st
                  (roamDirection cfg.unifi.gateAPMAC fromAP toAP)
                  now gateResult).2.1,
           (checkAndOpenGate cfg st (roamDirection cfg.unifi.gateAPMAC fromAP toAP)
              now gateResult).2.2)) ∧
    (¬ (toAP = cfg.unifi.gateAPMAC ∨ fromAP = cfg.unifi.gateAPMAC) →
      handleDeviceRoamed cfg st fromAP toAP now gateResult
        = (st,
           if cfg.gate.logActivity then
             [roamedEntry st (roamDirection cfg.unifi.gateAPMAC fromAP toAP)
                fromAP toAP]
           else [],
           false)) := by
  refine ⟨fun h1 h2 => ?_, fun h1 h2 => ?_, fun h1 h2 => ?_, fun h1 h2 => ?_,
    fun h => ?_, fun h => ?_⟩
  · unfold roamDirection
    rw [if_pos h1, if_pos h2]
  · unfold roamDirection
    rw [if_pos h1, if_neg (by simpa using h2)]
  · unfold roamDirection
    rw [if_neg h2, if_pos h1]
  · unfold roamDirection
    rw [if_neg h1, if_neg h2]
  · simp only [handleDeviceRoamed]
    rw [if_pos h]
  · simp only [handleDeviceRoamed]
    rw [if_neg h]

/-- Witness for C4: gate AP G, interior APs A and B. -/
theorem roam_classification_and_gate_invocation_witness :
    roamDirection "G" "A" "G" = directionLeaving ∧
    roamDirection "G" "" "G" = directionArriving ∧
    roamDirection "G" "G" "A" = directionArriving ∧
    roamDirection "G" "A" "B" = directionUnknown ∧
    handleDeviceRoamed ⟨⟨"G"⟩, ⟨5, false⟩⟩
        ⟨"AA:BB:CC:DD:EE:01", "Car", "A", "", 0, true, 0⟩ "A" "B" 300000000000
        none
      = (⟨"AA:BB:CC:DD:EE:01", "Car", "A", "", 0, true, 0⟩, [], false) :=
  ⟨(roam_classification_and_gate_invocation ⟨⟨"G"⟩, ⟨5, false⟩⟩
      ⟨"AA:BB:CC:DD:EE:01", "Car", "A", "", 0, true, 0⟩ "A" "G" 0 none).1
      rfl (by decide),
   (roam_classification_and_gate_invocation ⟨⟨"G"⟩, ⟨5, false⟩⟩
      ⟨"AA:BB:CC:DD:EE:01", "Car", "A", "", 0, true, 0⟩ "" "G" 0 none).2.1
      rfl rfl,
   (roam_classification_and_gate_invocation ⟨⟨"G"⟩, ⟨5, false⟩⟩
      ⟨"AA:BB:CC:DD:EE:01", "Car", "A", "", 0, true, 0⟩ "G" "A" 0 none).2.2.1
      rfl (by decide),
   (roam_classification_and_gate_invocation ⟨⟨"G"⟩, ⟨5, false⟩⟩
      ⟨"AA:BB:CC:DD:EE:01", "Car", "A", "", 0, true, 0⟩ "A" "B" 0 none).2.2.2.1
      (by decide) (by decide),
   (roam_classification_and_gate_invocation ⟨⟨"G"⟩, ⟨5, false⟩⟩
      ⟨"AA:BB:CC:DD:EE:01", "Car", "A", "", 0, true, 0⟩ "A" "B" 300000000000
      none).2.2.2.2.2 (by decide)⟩

/-- C3: a tracked device previously disconnected that appears in the
snapshot at the gate AP fires the connect pipeline (a connected event with
direction arriving, then the gate trigger controller) exactly when the
reported uptime is strictly below 30 seconds; at or above 30 seconds no
event fires and no gate trigger occurs, but currentAP, isConnected and
lastSeen are still updated from the snapshot. -/
theorem connect_at_gate_fires_only_when_fresh
    (cfg : Config) (st : DeviceState) (client : WirelessClient) (now : Nat)
    (gateResult : Option String)
    (hconn : st.isConnected = false) (hap : client.ap_mac = cfg.unifi.gateAPMAC) :
    (client.uptime < 30 →
      processDevice cfg st (some client) now gateResult
        = ({ (checkAndOpenGate cfg st directionArriving now gateResult).1 with
              currentAP := client.ap_mac, isConnected := true, lastSeen := now },
           (if cfg.gate.logActivity then
              [connectedEntry st directionArriving "nowhere" client.ap_mac]
            else [])
             ++ (checkAndOpenGate cfg st directionArriving now gateResult).2.1,
           (checkAndOpenGate cfg st directionArriving now gateResult).2.2)) ∧
    (¬ client.uptime < 30 →
      processDevice cfg st (some client) now gateResult
        = ({ st with
              currentAP := client.ap_mac, isConnected := true, lastSeen := now },
           [], false)) := by
  constructor
  · intro hu
    simp only [processDevice]
    rw [if_pos hconn, if_pos ⟨hap, hu⟩]
    simp only [handleDeviceConnected]
    rw [if_pos hap, if_pos hap]
  · intro hu
    simp only [processDevice]
    rw [if_pos hconn, if_neg (fun hc => hu hc.2), if_neg (not_not_intro hap)]

/-- Witness for C3: a device at the gate with uptime 45s only has its
state refreshed; with uptime 10s it fires connected/arriving and reaches
the gate trigger controller (which skips, the model instant 700ns being
within the cooldown of the zero-valued last trigger). -/
theorem connect_at_gate_fires_only_when_fresh_witness :
    processDevice ⟨⟨"G"⟩, ⟨5, true⟩⟩
        ⟨"AA:BB:CC:DD:EE:01", "Car", "", "", 0, false, 0⟩
        (some ⟨"aa:bb:cc:dd:ee:01", "G", 45⟩) 700 none
      = (⟨"AA:BB:CC:DD:EE:01", "Car", "G", "", 700, true, 0⟩, [], false) ∧
    processDevice ⟨⟨"G"⟩, ⟨5, true⟩⟩
        ⟨"AA:BB:CC:DD:EE:01", "Car", "", "", 0, false, 0⟩
        (some ⟨"aa:bb:cc:dd:ee:01", "G", 10⟩) 700 none
      = (⟨"AA:BB:CC:DD:EE:01", "Car", "G", "", 700, true, 0⟩,
         [connectedEntry ⟨"AA:BB:CC:DD:EE:01", "Car", "", "", 0, false, 0⟩
            directionArriving "nowhere" "G",
          gateSkippedEntry ⟨"AA:BB:CC:DD:EE:01", "Car", "", "", 0, false, 0⟩
            directionArriving],
         false) :=
  ⟨(connect_at_gate_fires_only_when_fresh ⟨⟨"G"⟩, ⟨5, true⟩⟩
      ⟨"AA:BB:CC:DD:EE:01", "Car", "", "", 0, false, 0⟩
      ⟨"aa:bb:cc:dd:ee:01", "G", 45⟩ 700 none rfl rfl).2 (by decide),
   (connect_at_gate_fires_only_when_fresh ⟨⟨"G"⟩, ⟨5, true⟩⟩
      ⟨"AA:BB:CC:DD:EE:01", "Car", "", "", 0, false, 0⟩
      ⟨"aa:bb:cc:dd:ee:01", "G", 10⟩ 700 none rfl rfl).1 (by decide)⟩

lemma checkAndOpenGate_fst (cfg : Config) (st : DeviceState) (direction : String)
    (now : Nat) (gateResult : Option String) :
    (checkAndOpenGate cfg st direction now gateResult).1 = st ∨
    (checkAndOpenGate cfg st direction now gateResult).1
      = { st with lastGateTrigger := now } := by
  unfold checkAndOpenGate
  by_cases h : (now : Int) - st.lastGateTrigger < cooldownNs cfg
  · rw [if_pos h]
    left
    rfl
  · rw [if_neg h]
    cases gateResult with
    | some e => left; rfl
    | none => right; rfl

lemma handleDeviceConnected_fst (cfg : Config) (st : DeviceState)
    (toAP fromAP : String) (now : Nat) (gateResult : Option String) :
    (handleDeviceConnected cfg st toAP fromAP now gateResult).1 = st ∨
    (handleDeviceConnected cfg st toAP fromAP now gateResult).1
      = { st with lastGateTrigger := now } := by
  simp only [handleDeviceConnected]
  by_cases h : toAP = cfg.unifi.gateAPMAC
  · rw [if_pos h]
    exact checkAndOpenGate_fst cfg st _ now gateResult
  · rw [if_neg h]
    left
    rfl

lemma handleDeviceRoamed_fst (cfg : Config) (st : DeviceState)
    (fromAP toAP : String) (now : Nat) (gateResult : Option String) :
    (handleDeviceRoamed cfg st fromAP toAP now gateResult).1 = st ∨
    (handleDeviceRoamed cfg st fromAP toAP now gateResult).1
      = { st with lastGateTrigger := now } := by
  simp only [handleDeviceRoamed]
  by_cases h : toAP = cfg.unifi.gateAPMAC ∨ fromAP = cfg.unifi.gateAPMAC
  · rw [if_pos h]
    exact checkAndOpenGate_fst cfg st _ now gateResult
  · rw [if_neg h]
    left
    rfl

lemma processDevice_mac (cfg : Config) (st : DeviceState)
    (oc : Option WirelessClient) (now : Nat) (g : Option String) :
    (processDevice cfg st oc now g).1.mac = st.mac := by
  cases oc with
  | none =>
      simp only [processDevice]
      by_cases h : st.isConnected
      · rw [if_pos h]
      · rw [if_neg h]
  | some c =>
      simp only [processDevice]
      by_cases hc : st.isConnected = false
      · rw [if_pos hc]
        by_cases h2 : c.ap_mac = cfg.unifi.gateAPMAC ∧ c.uptime < 30
        · rw [if_pos h2]
          rcases handleDeviceConnected_fst cfg st c.ap_mac "nowhere" now g with
            h | h <;> rw [h]
        · rw [if_neg h2]
          by_cases h3 : c.ap_mac ≠ cfg.unifi.gateAPMAC
          · rw [if_pos h3]
            rcases handleDeviceConnected_fst cfg st c.ap_mac "nowhere" now g with
              h | h <;> rw [h]
          · rw [if_neg h3]
      · rw [if_neg hc]
        by_cases h4 : st.currentAP ≠ c.ap_mac
        · rw [if_pos h4]
          rcases handleDeviceRoamed_fst cfg st st.currentAP c.ap_mac now g with
            h | h <;> rw [h]
        · rw [if_neg h4]

lemma processDevice_connected_same (cfg : Config) (st : DeviceState)
    (c : WirelessClient) (now : Nat) (g : Option String)
    (h1 : st.isConnected = true) (h2 : st.currentAP = c.ap_mac) :
    processDevice cfg st (some c) now g = ({ st with lastSeen := now }, [], false) := by
  simp only [processDevice]
  rw [if_neg (by rw [h1]; exact fun h => Bool.noConfusion h),
    if_neg (not_not_intro h2)]
  rw [← h2, ← h1]

lemma processDevice_disconnected_same (cfg : Config) (st : DeviceState)
    (now : Nat) (g : Option String) (h1 : st.isConnected = false) :
    processDevice cfg st none now g = (st, [], false) := by
  simp only [processDevice]
  rw [if_neg (by rw [h1]; exact fun h => Bool.noConfusion h)]

lemma processDevice_none_isConnected (cfg : Config) (st : DeviceState)
    (now : Nat) (g : Option String) :
    (processDevice cfg st none now g).1.isConnected = false := by
  simp only [processDevice]
  by_cases h : st.isConnected
  · rw [if_pos h]
  · rw [if_neg h]
    simpa using h

lemma processDevice_replay (cfg : Config) (oc : Option WirelessClient)
    (now1 now2 : Nat) (g1 g2 : Option String) (st : DeviceState) :
    (processDevice cfg (processDevice cfg st oc now1 g1).1 oc now2 g2).2.1 = [] ∧
    (processDevice cfg (processDevice cfg st oc now1 g1).1 oc now2 g2).2.2 = false ∧
    stripLastSeen (processDevice cfg (processDevice cfg st oc now1 g1).1 oc now2 g2).1
      = stripLastSeen (processDevice cfg st oc now1 g1).1 := by
  cases oc with
  | some c =>
      rw [processDevice_connected_same cfg _ c now2 g2 rfl rfl]
      exact ⟨rfl, rfl, rfl⟩
  | none =>
      rw [processDevice_disconnected_same cfg _ now2 g2
        (processDevice_none_isConnected cfg st now1 g1)]
      exact ⟨rfl, rfl, rfl⟩

lemma pollStates_cons (cfg : Config) (snap : List WirelessClient) (now : Nat)
    (g : String → Option String) (st : DeviceState) (tl : List DeviceState) :
    pollStates cfg snap now g (st :: tl)
      = (processDevice cfg st (lookupClient snap st.mac) now (g st.mac)).1
          :: pollStates cfg snap now g tl := rfl

lemma pollEvents_cons (cfg : Config) (snap : List WirelessClient) (now : Nat)
    (g : String → Option String) (st : DeviceState) (tl : List DeviceState) :
    pollEvents cfg snap now g (st :: tl)
      = (processDevice cfg st (lookupClient snap st.mac) now (g st.mac)).2.1
          ++ pollEvents cfg snap now g tl := rfl

lemma pollCalls_cons (cfg : Config) (snap : List WirelessClient) (now : Nat)
    (g : String → Option String) (st : DeviceState) (tl : List DeviceState) :
    pollCalls cfg snap now g (st :: tl)
      = (if (processDevice cfg st (lookupClient snap st.mac) now (g st.mac)).2.2
          then 1 else 0) + pollCalls cfg snap now g tl := by
  simp only [pollCalls, pollResults, List.map_cons, List.filter_cons]
  by_cases h :
    (processDevice cfg st (lookupClient snap st.mac) now (g st.mac)).2.2 = true
  · rw [if_pos h, if_pos h]
    simp [Nat.add_comm]
  · rw [if_neg h, if_neg h]
    simp

/-- C9: replaying an identical snapshot immediately after a poll is
idempotent: the second poll over the same snapshot writes no log entry and
makes no actuator call for any device, and changes the registry only in
the lastSeen fields. -/
theorem replaying_identical_snapshot_is_idempotent
    (cfg : Config) (snapshot : List WirelessClient) (now1 now2 : Nat)
    (g1 g2 : String → Option String) (registry : List DeviceState) :
    pollEvents cfg snapshot now2 g2 (pollStates cfg snapshot now1 g1 registry)
        = [] ∧
    pollCalls cfg snapshot now2 g2 (pollStates cfg snapshot now1 g1 registry)
        = 0 ∧
    (pollStates cfg snapshot now2 g2
        (pollStates cfg snapshot now1 g1 registry)).map stripLastSeen
      = (pollStates cfg snapshot now1 g1 registry).map stripLastSeen := by
  induction registry with
  | nil => exact ⟨rfl, rfl, rfl⟩
  | cons st tl ih =>
      obtain ⟨ih1, ih2, ih3⟩ := ih
      have hmac := processDevice_mac cfg st (lookupClient snapshot st.mac) now1
        (g1 st.mac)
      obtain ⟨r1, r2, r3⟩ := processDevice_replay cfg (lookupClient snapshot st.mac)
        now1 now2 (g1 st.mac) (g2 st.mac) st
      refine ⟨?_, ?_, ?_⟩
      · rw [pollStates_cons, pollEvents_cons, hmac, r1, List.nil_append, ih1]
      · rw [pollStates_cons, pollCalls_cons, hmac, r2]
        simpa using ih2
      · rw [pollStates_cons, pollStates_cons, List.map_cons, List.map_cons, hmac,
          r3, ih3]

lemma lookupClient_mem (snap : List WirelessClient) (key : String)
    (c : WirelessClient) (h : lookupClient snap key = some c) : c ∈ snap := by
  unfold lookupClient at h
  have h' : c ∈ (snap.filter (fun x => toUpperStr x.mac = key)).getLast? := h
  rcases List.mem_getLast?_eq_getLast h' with ⟨hne, hc⟩
  rw [hc]
  exact List.mem_of_mem_filter (List.getLast_mem hne)

lemma processDevice_some_connInv (cfg : Config) (st : DeviceState)
    (c : WirelessClient) (now : Nat) (g : Option String) (hap : c.ap_mac ≠ "") :
    connInv (processDevice cfg st (some c) now g).1 := by
  have h1 : (processDevice cfg st (some c) now g).1.currentAP = c.ap_mac := rfl
  have h2 : (processDevice cfg st (some c) now g).1.isConnected = true := rfl
  unfold connInv
  rw [h1, h2]
  simp [hap]

lemma processDevice_none_connInv (cfg : Config) (st : DeviceState)
    (now : Nat) (g : Option String) (h : connInv st) :
    connInv (processDevice cfg st none now g).1 := by
  simp only [processDevice]
  by_cases hc : st.isConnected
  · rw [if_pos hc]
    unfold connInv
    simp
  · rw [if_neg hc]
    exact h

lemma mapSet_connInv (reg : List DeviceState) (stNew : DeviceState)
    (h : ∀ st ∈ reg, connInv st) (hn : connInv stNew) :
    ∀ st ∈ mapSet reg stNew, connInv st := by
  intro st hst
  unfold mapSet at hst
  by_cases hc : reg.any (fun s => s.mac = stNew.mac)
  · rw [if_pos hc] at hst
    rcases List.mem_map.mp hst with ⟨s, hs, hmap⟩
    by_cases h2 : s.mac = stNew.mac
    · rw [if_pos h2] at hmap
      rw [← hmap]
      exact hn
    · rw [if_neg h2] at hmap
      rw [← hmap]
      exact h s hs
  · rw [if_neg hc] at hst
    rcases List.mem_append.mp hst with h1 | h1
    · exact h _ h1
    · rw [List.mem_singleton.mp h1]
      exact hn

lemma applyOp_connInv (cfg : Config) (reg : List DeviceState) (op : Op)
    (h : ∀ st ∈ reg, connInv st) (hop : goodSnapshots op) :
    ∀ st ∈ applyOp cfg reg op, connInv st := by
  cases op with
  | poll snap now g =>
      intro st hst
      simp only [applyOp, pollStates, pollResults] at hst
      rcases List.mem_map.mp hst with ⟨r, hr, hrst⟩
      rcases List.mem_map.mp hr with ⟨s, hs, hsr⟩
      rw [← hrst, ← hsr]
      cases hoc : lookupClient snap s.mac with
      | some c =>
          exact processDevice_some_connInv cfg s c now (g s.mac)
            (hop c (lookupClient_mem snap s.mac c hoc))
      | none => exact processDevice_none_connInv cfg s now (g s.mac) (h s hs)
  | add isMonitoring mac name =>
      intro st hst
      simp only [applyOp, addDeviceRegistry] at hst
      by_cases hm : isMonitoring = true
      · rw [if_pos hm] at hst
        refine mapSet_connInv reg _ h ?_ st hst
        unfold connInv
        simp
      · rw [if_neg hm] at hst
        exact h st hst
  | update isMonitoring mac name enabled =>
      intro st hst
      simp only [applyOp, updateDeviceRegistry] at hst
      by_cases hc : reg.any (fun s => s.mac = mac)
      · rw [if_pos hc] at hst
        have hmapped : ∀ s2 ∈ reg.map (fun s =>
            if s.mac = mac then { s with name := name } else s), connInv s2 := by
          intro s2 hs2
          rcases List.mem_map.mp hs2 with ⟨s, hs, hmap⟩
          by_cases h2 : s.mac = mac
          · rw [if_pos h2] at hmap
            rw [← hmap]
            exact h s hs
          · rw [if_neg h2] at hmap
            rw [← hmap]
            exact h s hs
        by_cases he : enabled = false
        · rw [if_pos he] at hst
          exact hmapped st (List.mem_of_mem_filter hst)
        · rw [if_neg he] at hst
          exact hmapped st hst
      · rw [if_neg hc] at hst
        by_cases hem : enabled = true ∧ isMonitoring = true
        · rw [if_pos hem] at hst
          refine mapSet_connInv reg _ h ?_ st hst
          unfold connInv
          simp
        · rw [if_neg hem] at hst
          exact h st hst
  | remove mac =>
      intro st hst
      simp only [applyOp, deleteDeviceRegistry, mapDelete] at hst
      exact h st (List.mem_of_mem_filter hst)

/-- C8 (amended): starting from any registry whose states satisfy the
connectivity invariant (in particular a freshly seeded one), and applying
any sequence of poll cycles and registry operations in which every
snapshot entry reports a non-empty AP identifier, every reachable device
state has an empty currentAP exactly when isConnected is false. -/
theorem registry_connectivity_invariant (cfg : Config) (reg0 : List DeviceState)
    (ops : List Op) (h0 : ∀ st ∈ reg0, connInv st)
    (hops : ∀ op ∈ ops, goodSnapshots op) :
    ∀ st ∈ applyOps cfg reg0 ops, connInv st := by
  induction ops generalizing reg0 with
  | nil => simpa [applyOps] using h0
  | cons op tl ih =>
      have h1 := applyOp_connInv cfg reg0 op h0 (hops op (List.mem_cons_self _ _))
      exact ih (applyOp cfg reg0 op) h1
        (fun o ho => hops o (List.mem_cons_of_mem _ ho))

/-- Witness for C8 (amended): a freshly seeded one-device registry, one
poll placing the device at interior AP A with a non-empty AP identifier;
the resulting state satisfies the invariant. -/
theorem registry_connectivity_invariant_witness :
    connInv ⟨"AA:BB:CC:DD:EE:01", "Car", "A", "", 100, true, 0⟩ := by
  refine registry_connectivity_invariant ⟨⟨"G"⟩, ⟨5, false⟩⟩
    [⟨"AA:BB:CC:DD:EE:01", "Car", "", "", 0, false, 0⟩]
    [Op.poll [⟨"aa:bb:cc:dd:ee:01", "A", 5⟩] 100 (fun _ => none)]
    (by decide) ?_ ⟨"AA:BB:CC:DD:EE:01", "Car", "A", "", 100, true, 0⟩ ?_
  · intro op hop
    rw [List.mem_singleton.mp hop]
    intro c hc
    rw [List.mem_singleton.mp hc]
    decide
  · decide

/-- Counterexample to C8 as stated: from a freshly seeded registry, a
single poll whose snapshot entry carries an empty AP identifier produces a
reachable device state that is connected with an empty currentAP. -/
theorem registry_connectivity_counterexample :
    applyOps ⟨⟨"G"⟩, ⟨5, false⟩⟩
        [⟨"AA:BB:CC:DD:EE:01", "Car", "", "", 0, false, 0⟩]
        [Op.poll [⟨"aa:bb:cc:dd:ee:01", "", 5⟩] 100 (fun _ => none)]
      = [⟨"AA:BB:CC:DD:EE:01", "Car", "", "", 100, true, 0⟩] ∧
    ¬ connInv ⟨"AA:BB:CC:DD:EE:01", "Car", "", "", 100, true, 0⟩ := by
  constructor
  · decide
  · decide

end GateOpener
